import Mathlib

/-!
Verification development for the MVideoDK browser-extension download relay.

The relay consists of three cooperating scripts: the popup control panel
(popup.js), the page-injected floating control (content_script.js) and the
background coordinator (background service worker).  This file gives a
shallow embedding of their configuration resolution, submission client,
message routing, popup state handling and floating-control persistence,
and proves the testable properties stated in the design document.

Network effects are modelled by passing the outcome of each fetch as an
explicit argument; each operation returns, besides its result, the request
it issued (if any) and a network-call counter.
-/

namespace MVideoDK

/-- JavaScript string-or: `a || b` for strings, where the empty string is
falsy (also models absent/undefined fields, which behave the same under
the or-chains used by this code). -/
def jsOr (a b : String) : String :=
  if a = "" then b else a

/-- Coerces an optional string to the string JS sees: absent becomes the
empty string (falsy), mirroring `x || ""`. -/
def optStr : Option String → String
  | none => ""
  | some s => s

/-- JS truthiness of an optional string field: absent or empty is falsy. -/
def optTruthy : Option String → Bool
  | none => false
  | some s => s != ""

/-- Models `s.replace(/\/+$/, "")`: removes every trailing slash. -/
def stripTrailingSlashes (s : String) : String :=
  String.mk ((s.toList.reverse.dropWhile (fun c => c = '/')).reverse)

/-- Models JS `toUpperCase()` on the ASCII mode strings used here. -/
def toUpperCase (s : String) : String :=
  String.mk (s.toList.map Char.toUpper)

/-- Character-list prefix test (the meaning of the regexp anchor used by
the strict URL filter). -/
def strStartsWith (s p : String) : Bool :=
  s.toList.take p.toList.length == p.toList

/-- Models JS `trim()`: strips leading and trailing whitespace. -/
def jsTrim (s : String) : String :=
  String.mk (((s.toList.dropWhile Char.isWhitespace).reverse.dropWhile
    Char.isWhitespace).reverse)

/-- Bundled configuration (config_ext.json): server_url, api_prefix
(field renamed api_pfx here), token.  Empty string models an absent or
empty JSON field, which the code treats identically via truthiness. -/
structure Config where
  server_url : String
  api_pfx : String
  token : String
deriving Repr, DecidableEq

/-- JSON body of a successful override response: optional server_url and
token fields, plus arbitrary other fields (modelled as key/value pairs)
that the code never reads. -/
structure OverrideBody where
  server_url : Option String
  token : Option String
  other : List (String × String)
deriving Repr, DecidableEq

/-- Outcome of the best-effort fetch of the dynamic-config endpoint:
a transport failure (fetch throws), a non-ok HTTP status, an ok response
whose body fails to parse as JSON (res.json() throws inside the try), or
an ok response with a parsed body. -/
inductive RemoteResult where
  | networkError : RemoteResult
  | httpError : Nat → RemoteResult
  | malformed : RemoteResult
  | ok : OverrideBody → RemoteResult
deriving Repr, DecidableEq

/-- Override application, from the background loadConfig (and identically
the popup loadConfig): `if (srv.server_url) CFG.server_url = srv.server_url;
if (srv.token) CFG.token = srv.token;`.  Only these two fields are read;
every other response field is ignored. -/
def applyOverride (cfg : Config) (srv : OverrideBody) : Config :=
  let cfg1 := if optTruthy srv.server_url then
      { cfg with server_url := srv.server_url.getD "" } else cfg
  if optTruthy srv.token then
      { cfg1 with token := srv.token.getD "" } else cfg1

/-- The URL the code fetches for the dynamic override, from
`const extConfigUrl = base + "/api/ext/config"` where base is the bundled
server_url with trailing slashes stripped.  Note the path segment "/api"
is a string literal in the source, not the configured api_prefix. -/
def extConfigUrl (cfg : Config) : String :=
  stripTrailingSlashes cfg.server_url ++ "/api/ext/config"

/-- loadConfig (both the popup and the background copy): read the bundled
JSON (if that read fails, the awaited rejection escapes: modelled as none),
then try the remote override; any failure of the remote step is swallowed
by the surrounding try/catch and the bundled defaults stand. -/
def loadConfig (localCfg : Option Config) (remote : RemoteResult) : Option Config :=
  match localCfg with
  | none => none
  | some cfg =>
    match remote with
    | RemoteResult.ok srv => some (applyOverride cfg srv)
    | _ => some cfg

/-- Result of getServerInfo: base (server_url with trailing slashes
stripped), the API path piece (cfg.api_prefix or "/api" when falsy), and
the token (or ""). -/
structure ServerInfo where
  base : String
  apiPfx : String
  token : String
deriving Repr, DecidableEq

/-- getServerInfo from the background script. -/
def getServerInfo (cfg : Config) : ServerInfo :=
  { base := stripTrailingSlashes cfg.server_url
  , apiPfx := jsOr cfg.api_pfx "/api"
  , token := jsOr cfg.token "" }

/-- Parsed JSON body of a queue response, as read by sendDownload: the
code only ever looks at the detail and message fields. -/
structure QueueBody where
  detail : Option String
  message : Option String
deriving Repr, DecidableEq

/-- Outcome of the queue POST as seen by sendDownload: the fetch throws,
or a response arrives with res.ok, res.statusText, and an optionally
JSON-parseable body (none models the swallowed res.json() failure). -/
inductive QueueResponse where
  | networkError : QueueResponse
  | response : Bool → String → Option QueueBody → QueueResponse
deriving Repr, DecidableEq

/-- The HTTP request sendDownload issues, as built at its fetch call:
method, endpoint URL, the two headers, and the three JSON body fields. -/
structure Request where
  method : String
  reqUrl : String
  authorization : String
  contentType : String
  bodyUrl : String
  bodySource : String
  bodyMode : String
deriving Repr, DecidableEq

/-- Classified submission outcome (the spec's SubmissionOutcome taxonomy),
carrying the detail string the code shows in its notification. -/
inductive ErrorKind where
  | Misconfigured : ErrorKind
  | NoUrl : ErrorKind
  | InvalidUrl : ErrorKind
  | Unreachable : ErrorKind
  | Rejected : ErrorKind
deriving Repr, DecidableEq

/-- Tagged submission result. -/
inductive Outcome where
  | success : Outcome
  | failure : ErrorKind → String → Outcome
deriving Repr, DecidableEq

/-- What one sendDownload call did: its classified outcome (as surfaced by
the notification it emits), the network request it issued if any, and how
many network calls it made. -/
structure SendResult where
  outcome : Outcome
  request : Option Request
  networkCalls : Nat
deriving Repr, DecidableEq

/-- The display error chosen for a non-ok queue response:
`(data && (data.detail || data.message)) || res.statusText || "Error HTTP"`. -/
def displayError (statusText : String) (body : Option QueueBody) : String :=
  let fromBody := match body with
    | none => ""
    | some d => jsOr (optStr d.detail) (optStr d.message)
  jsOr (jsOr fromBody statusText) "Error HTTP"

/-- The request built by sendDownload's fetch call: POST to
base ++ apiPrefix ++ "/queue", bearer authorization, JSON body with the
url, source "EXT" and the upper-cased mode (mode defaulting to "video"). -/
def queueRequest (cfg : Config) (url modo : String) : Request :=
  { method := "POST"
  , reqUrl := (getServerInfo cfg).base ++ (getServerInfo cfg).apiPfx ++ "/queue"
  , authorization := "Bearer " ++ (getServerInfo cfg).token
  , contentType := "application/json"
  , bodyUrl := url
  , bodySource := "EXT"
  , bodyMode := toUpperCase (jsOr modo "video") }

/-- sendDownload from the background script: bail out before any network
use when base or token is empty; otherwise issue the queue POST and
classify the result (network failure, non-ok status with a display error,
or success). -/
def sendDownload (cfg : Config) (url modo : String) (net : QueueResponse) : SendResult :=
  if (getServerInfo cfg).base = "" ∨ (getServerInfo cfg).token = "" then
    { outcome := Outcome.failure ErrorKind.Misconfigured
        "Falta configuración de servidor o token."
    , request := none
    , networkCalls := 0 }
  else
    match net with
    | QueueResponse.networkError =>
      { outcome := Outcome.failure ErrorKind.Unreachable
          "No se pudo contactar con el servidor MVideoDk."
      , request := some (queueRequest cfg url modo)
      , networkCalls := 1 }
    | QueueResponse.response ok statusText body =>
      if ok then
        { outcome := Outcome.success
        , request := some (queueRequest cfg url modo)
        , networkCalls := 1 }
      else
        { outcome := Outcome.failure ErrorKind.Rejected (displayError statusText body)
        , request := some (queueRequest cfg url modo)
        , networkCalls := 1 }

/-- A DIRECT_DOWNLOAD message as sent by the popup handlers and by the
floating control: url, mode string, and the fromFloat flag (absent is
false). -/
structure Message where
  url : String
  modo : String
  fromFloat : Bool
deriving Repr, DecidableEq

/-- The reply a listener passes to sendResponse: an ok flag and, for the
failure replies, an error string. -/
structure Reply where
  ok : Bool
  error : Option String
deriving Repr, DecidableEq

/-- Observable behaviour of one run of the background DIRECT_DOWNLOAD
listener: the reply it delivered (after the async part settled, if it
reached it) and the sendDownload invocation it made, if any. -/
structure ListenerResult where
  response : Option Reply
  submitted : Option SendResult
deriving Repr, DecidableEq

/-- The strict URL filter applied to non-floating submissions: the regexp
test for a leading http:// or https://. -/
def isValidUrl (s : String) : Bool :=
  strStartsWith s "http://" || strStartsWith s "https://"

/-- The background DIRECT_DOWNLOAD listener: resolve the effective URL
(message url, else the sender tab url, else empty); reply no-url when it
is empty; for non-floating origins reject URLs failing the strict filter;
otherwise run sendDownload and then reply ok true. -/
def handleDirectDownload (msg : Message) (senderTabUrl : Option String)
    (cfg : Config) (net : QueueResponse) : ListenerResult :=
  let finalUrl := jsOr msg.url (optStr senderTabUrl)
  if finalUrl = "" then
    { response := some { ok := false, error := some "no-url" }, submitted := none }
  else if !msg.fromFloat && !(isValidUrl finalUrl) then
    { response := some { ok := false, error := some "URL inválida" }, submitted := none }
  else
    { response := some { ok := true, error := none }
    , submitted := some (sendDownload cfg finalUrl (jsOr msg.modo "video") net) }

/-- Popup UI state relevant to submissions: the free-text URL field and
the current mode. -/
structure PopupState where
  urlField : String
  mode : String
deriving Repr, DecidableEq

/-- resetAfterSend from the popup: clear the URL field and force the mode
back to video. -/
def resetAfterSend (s : PopupState) : PopupState :=
  { s with urlField := "", mode := "video" }

/-- What one popup button click did: the message it sent (if any) and the
popup state after the sendMessage callback ran. -/
structure ClickResult where
  sent : Option Message
  finalState : PopupState
deriving Repr, DecidableEq

/-- The downloadBtn click handler: take the trimmed field, else the active
tab URL; abort (no reset) when empty; else send the current-mode message
and, in the callback — which ignores the reply — resetAfterSend. -/
def downloadBtnClick (s : PopupState) (tabUrl : Option String)
    (_reply : Reply) : ClickResult :=
  let url := jsOr (jsTrim s.urlField) (optStr tabUrl)
  if url = "" then
    { sent := none, finalState := s }
  else
    { sent := some { url := url, modo := s.mode, fromFloat := false }
    , finalState := resetAfterSend s }

/-- The downloadCurrentBtn click handler: active tab URL only, mode forced
to video; the callback ignores the reply and runs resetAfterSend. -/
def downloadCurrentBtnClick (s : PopupState) (tabUrl : Option String)
    (_reply : Reply) : ClickResult :=
  let url := optStr tabUrl
  if url = "" then
    { sent := none, finalState := s }
  else
    { sent := some { url := url, modo := "video", fromFloat := false }
    , finalState := resetAfterSend s }

/-- The downloadPlaylistBtn click handler: trimmed field else tab URL,
mode forced to playlist; the callback ignores the reply and runs
resetAfterSend. -/
def downloadPlaylistBtnClick (s : PopupState) (tabUrl : Option String)
    (_reply : Reply) : ClickResult :=
  let url := jsOr (jsTrim s.urlField) (optStr tabUrl)
  if url = "" then
    { sent := none, finalState := s }
  else
    { sent := some { url := url, modo := "playlist", fromFloat := false }
    , finalState := resetAfterSend s }

/-- The durable storage slot under the MvideoDk_float_button key: none
models an absent key. -/
abbrev Storage := Option Bool

/-- getFloatEnabled from the popup: the stored value strictly equals true
(absent, false or anything else reads as disabled). -/
def getFloatEnabled : Storage → Bool
  | some true => true
  | _ => false

/-- setFloatEnabled from the popup: writes Boolean(enabled) under the key,
replacing whatever was there. -/
def setFloatEnabled (enabled : Bool) (_s : Storage) : Storage :=
  some enabled

/-- initFloatState from the content script, run at every page-context
startup: reads the key, treats strictly-true as enabled, and creates the
overlay button exactly when enabled (removing it otherwise).  The result
is whether the button is present after initialisation. -/
def initFloatState : Storage → Bool
  | some true => true
  | _ => false

/-- The message the floating control's click handler sends: the tracked
page URL, mode hard-coded to "video", fromFloat hard-coded to true. -/
def floatClickMessage (currentUrl : String) : Message :=
  { url := currentUrl, modo := "video", fromFloat := true }

/-- C10: every click of the page floating control raises a SubmitDownload
intent whose mode is exactly "video" and whose fromFloatingControl flag is
true; the playlist mode can never be submitted from the floating
control. -/
theorem C10_float_click_is_video (u : String) :
    (floatClickMessage u).modo = "video" ∧
    (floatClickMessage u).fromFloat = true ∧
    (floatClickMessage u).modo ≠ "playlist" := by
  refine ⟨rfl, rfl, ?_⟩
  show "video" ≠ "playlist"
  decide

/-- C8: when the FloatingControlState key is absent every reader (the
popup's getFloatEnabled and the content script's initFloatState) treats
it as disabled; writing true and then restarting the page context leaves
the overlay control present, and writing false and restarting leaves it
absent. -/
theorem C8_float_state_round_trip :
    getFloatEnabled none = false ∧
    initFloatState none = false ∧
    (∀ s : Storage, initFloatState (setFloatEnabled true s) = true) ∧
    (∀ s : Storage, getFloatEnabled (setFloatEnabled true s) = true) ∧
    (∀ s : Storage, initFloatState (setFloatEnabled false s) = false) ∧
    (∀ s : Storage, getFloatEnabled (setFloatEnabled false s) = false) :=
  ⟨rfl, rfl, fun _ => rfl, fun _ => rfl, fun _ => rfl, fun _ => rfl⟩

/-- C6: for every failed or malformed override response (network error,
non-success status, or unparseable body) loadConfig returns exactly the
bundled defaults and never raises; it fails only when the local bundled
configuration itself cannot be read. -/
theorem C6_defaults_on_failed_override (d : Config) (status : Nat) (r : RemoteResult) :
    loadConfig (some d) RemoteResult.networkError = some d ∧
    loadConfig (some d) (RemoteResult.httpError status) = some d ∧
    loadConfig (some d) RemoteResult.malformed = some d ∧
    loadConfig none r = none :=
  ⟨rfl, rfl, rfl, rfl⟩

/-- C3 (counterexample): with the configured api_prefix set to "/v2", the
override request URL the code builds is still the base joined with the
literal "/api/ext/config", not the claimed concatenation of base,
configured api_prefix and "/ext/config". -/
theorem C3_counterexample :
    extConfigUrl { server_url := "https://s.test", api_pfx := "/v2", token := "tok" }
        = "https://s.test/api/ext/config" ∧
    extConfigUrl { server_url := "https://s.test", api_pfx := "/v2", token := "tok" }
        ≠ "https://s.test/v2/ext/config" := by
  refine ⟨by decide, by decide⟩

/-- C3 (amended): the override request URL is the server base URL
(trailing slashes stripped) concatenated with the literal path
"/api/ext/config", independent of the configured api_prefix; and only the
server_url and token fields of the response are applied, every other
response field being ignored. -/
theorem C3_override_url_and_fields (cfg : Config) (su tok : Option String)
    (o1 o2 : List (String × String)) :
    extConfigUrl cfg = stripTrailingSlashes cfg.server_url ++ "/api/ext/config" ∧
    applyOverride cfg { server_url := su, token := tok, other := o1 }
      = applyOverride cfg { server_url := su, token := tok, other := o2 } ∧
    (applyOverride cfg { server_url := su, token := tok, other := o1 }).api_pfx
      = cfg.api_pfx := by
  refine ⟨rfl, rfl, ?_⟩
  by_cases h1 : optTruthy su <;> by_cases h2 : optTruthy tok <;>
    simp [applyOverride, h1, h2]

/-- C5: a well-formed override overwrites exactly the present-and-nonempty
server_url and token fields and leaves every other configuration field at
its bundled default; in particular the override with server_url
https x.test and token abc yields that base and token with api_prefix
unchanged. -/
theorem C5_override_exact_fields (d : Config) (srv : OverrideBody) :
    loadConfig (some d) (RemoteResult.ok srv) = some
      { server_url := if optTruthy srv.server_url then srv.server_url.getD "" else d.server_url
      , api_pfx := d.api_pfx
      , token := if optTruthy srv.token then srv.token.getD "" else d.token } ∧
    loadConfig (some { server_url := "http://localhost:8000", api_pfx := "/api", token := "tokdef" })
        (RemoteResult.ok { server_url := some "https://x.test", token := some "abc", other := [] })
      = some { server_url := "https://x.test", api_pfx := "/api", token := "abc" } := by
  constructor
  · by_cases h1 : optTruthy srv.server_url <;> by_cases h2 : optTruthy srv.token <;>
      simp [loadConfig, applyOverride, h1, h2]
  · decide

/-- C2: whenever the effective configuration's base URL or auth token is
empty, sendDownload returns the Misconfigured outcome, issues no request,
and its network-call counter stays at zero. -/
theorem C2_misconfigured_no_network (cfg : Config) (url modo : String)
    (net : QueueResponse)
    (h : (getServerInfo cfg).base = "" ∨ (getServerInfo cfg).token = "") :
    (sendDownload cfg url modo net).outcome
      = Outcome.failure ErrorKind.Misconfigured "Falta configuración de servidor o token." ∧
    (sendDownload cfg url modo net).networkCalls = 0 ∧
    (sendDownload cfg url modo net).request = none := by
  unfold sendDownload
  rw [if_pos h]
  exact ⟨rfl, rfl, rfl⟩

/-- C2 witness: a configuration with an empty token is misconfigured and
its submission makes zero network calls. -/
theorem C2_misconfigured_witness :
    ((getServerInfo { server_url := "http://localhost:8000", api_pfx := "/api", token := "" }).base = ""
      ∨ (getServerInfo { server_url := "http://localhost:8000", api_pfx := "/api", token := "" }).token = "") ∧
    (sendDownload { server_url := "http://localhost:8000", api_pfx := "/api", token := "" }
        "https://a.b/c" "video" QueueResponse.networkError).networkCalls = 0 :=
  ⟨Or.inr (by decide),
    (C2_misconfigured_no_network
      { server_url := "http://localhost:8000", api_pfx := "/api", token := "" }
      "https://a.b/c" "video" QueueResponse.networkError (Or.inr (by decide))).2.1⟩

/-- C4: a non-floating SubmitDownload whose URL fails the strict http(s)
filter is answered with the invalid-URL reply and no submission attempt,
while the identical URL with fromFloat true bypasses the check and
proceeds to run sendDownload. -/
theorem C4_strict_url_check (url modo : String) (cfg : Config) (net : QueueResponse)
    (hne : url ≠ "") (hinv : isValidUrl url = false) :
    handleDirectDownload { url := url, modo := modo, fromFloat := false } none cfg net
      = { response := some { ok := false, error := some "URL inválida" }, submitted := none } ∧
    (handleDirectDownload { url := url, modo := modo, fromFloat := true } none cfg net).submitted
      = some (sendDownload cfg url (jsOr modo "video") net) := by
  constructor
  · simp [handleDirectDownload, jsOr, optStr, hne, hinv]
  · simp [handleDirectDownload, jsOr, optStr, hne, hinv]

/-- C4 witness: the literal input not-a-url from a non-floating origin is
rejected as invalid without any submission. -/
theorem C4_strict_url_witness :
    ("not-a-url" ≠ "") ∧ isValidUrl "not-a-url" = false ∧
    handleDirectDownload { url := "not-a-url", modo := "video", fromFloat := false } none
        { server_url := "http://localhost:8000", api_pfx := "/api", token := "tok" }
        QueueResponse.networkError
      = { response := some { ok := false, error := some "URL inválida" }, submitted := none } :=
  ⟨by decide, by decide,
    (C4_strict_url_check "not-a-url" "video"
      { server_url := "http://localhost:8000", api_pfx := "/api", token := "tok" }
      QueueResponse.networkError (by decide) (by decide)).1⟩

/-- C7: after any completed popup submission round-trip — for all three
buttons and for every reply value — the popup mode is video and the
free-text URL field is empty; moreover each handler's behaviour is
entirely independent of the reply, making the reset unconditional on the
outcome. -/
theorem C7_reset_after_send (s : PopupState) (t : Option String) (r r2 : Reply) :
    ((downloadBtnClick s t r).sent ≠ none →
      (downloadBtnClick s t r).finalState = { urlField := "", mode := "video" }) ∧
    ((downloadCurrentBtnClick s t r).sent ≠ none →
      (downloadCurrentBtnClick s t r).finalState = { urlField := "", mode := "video" }) ∧
    ((downloadPlaylistBtnClick s t r).sent ≠ none →
      (downloadPlaylistBtnClick s t r).finalState = { urlField := "", mode := "video" }) ∧
    downloadBtnClick s t r = downloadBtnClick s t r2 ∧
    downloadCurrentBtnClick s t r = downloadCurrentBtnClick s t r2 ∧
    downloadPlaylistBtnClick s t r = downloadPlaylistBtnClick s t r2 := by
  refine ⟨?_, ?_, ?_, rfl, rfl, rfl⟩
  · intro h
    by_cases hurl : jsOr (jsTrim s.urlField) (optStr t) = ""
    · simp [downloadBtnClick, hurl] at h
    · simp [downloadBtnClick, hurl, resetAfterSend]
  · intro h
    by_cases hurl : optStr t = ""
    · simp [downloadCurrentBtnClick, hurl] at h
    · simp [downloadCurrentBtnClick, hurl, resetAfterSend]
  · intro h
    by_cases hurl : jsOr (jsTrim s.urlField) (optStr t) = ""
    · simp [downloadPlaylistBtnClick, hurl] at h
    · simp [downloadPlaylistBtnClick, hurl, resetAfterSend]

/-- C7 witness: a concrete completed send from a popup in playlist mode
with a filled URL field ends with the field empty and the mode video. -/
theorem C7_reset_witness :
    (downloadBtnClick { urlField := "https://a.b/c", mode := "playlist" } none
        { ok := false, error := some "x" }).sent ≠ none ∧
    (downloadBtnClick { urlField := "https://a.b/c", mode := "playlist" } none
        { ok := false, error := some "x" }).finalState
      = { urlField := "", mode := "video" } :=
  ⟨by decide,
    (C7_reset_after_send { urlField := "https://a.b/c", mode := "playlist" } none
      { ok := false, error := some "x" } { ok := true, error := none }).1 (by decide)⟩

/-- C9: every submission that reaches the network is a POST to the base
URL joined with the API path piece and "/queue", carrying a bearer
authorization header and the JSON body url, source EXT and the upper-cased
mode, which is VIDEO or PLAYLIST for the two mode values the relay sends;
and on a non-ok response the display error is the body's detail, else its
message, else the status text. -/
theorem C9_queue_request_shape (cfg : Config) (url modo : String)
    (hb : (getServerInfo cfg).base ≠ "") (ht : (getServerInfo cfg).token ≠ "")
    (hm : modo = "video" ∨ modo = "playlist") :
    (∀ net, (sendDownload cfg url modo net).request = some
        { method := "POST"
        , reqUrl := (getServerInfo cfg).base ++ (getServerInfo cfg).apiPfx ++ "/queue"
        , authorization := "Bearer " ++ (getServerInfo cfg).token
        , contentType := "application/json"
        , bodyUrl := url
        , bodySource := "EXT"
        , bodyMode := toUpperCase modo }) ∧
    (toUpperCase modo = "VIDEO" ∨ toUpperCase modo = "PLAYLIST") ∧
    (∀ st d m, d ≠ "" →
      (sendDownload cfg url modo
          (QueueResponse.response false st (some { detail := some d, message := m }))).outcome
        = Outcome.failure ErrorKind.Rejected d) ∧
    (∀ st m, m ≠ "" →
      (sendDownload cfg url modo
          (QueueResponse.response false st (some { detail := none, message := some m }))).outcome
        = Outcome.failure ErrorKind.Rejected m) ∧
    (∀ st, st ≠ "" →
      (sendDownload cfg url modo (QueueResponse.response false st none)).outcome
        = Outcome.failure ErrorKind.Rejected st) := by
  have hcond : ¬ ((getServerInfo cfg).base = "" ∨ (getServerInfo cfg).token = "") := by
    push_neg
    exact ⟨hb, ht⟩
  have hmodo : jsOr modo "video" = modo := by
    rcases hm with h | h <;> subst h <;> rfl
  refine ⟨?_, ?_, ?_, ?_, ?_⟩
  · intro net
    cases net with
    | networkError => simp [sendDownload, hcond, queueRequest, hmodo]
    | response ok st body => cases ok <;> simp [sendDownload, hcond, queueRequest, hmodo]
  · rcases hm with h | h <;> subst h
    · exact Or.inl (by decide)
    · exact Or.inr (by decide)
  · intro st d m hd
    simp [sendDownload, hcond, displayError, jsOr, optStr, hd]
  · intro st m hmsg
    simp [sendDownload, hcond, displayError, jsOr, optStr, hmsg]
  · intro st hst
    simp [sendDownload, hcond, displayError, jsOr, optStr, hst]

/-- C9 witness: a concrete well-configured submission in video mode issues
the expected queue request, and a non-ok response with no parseable body
surfaces the status text. -/
theorem C9_queue_request_witness :
    ((getServerInfo { server_url := "http://localhost:8000", api_pfx := "/api", token := "tok" }).base ≠ "") ∧
    ((getServerInfo { server_url := "http://localhost:8000", api_pfx := "/api", token := "tok" }).token ≠ "") ∧
    (sendDownload { server_url := "http://localhost:8000", api_pfx := "/api", token := "tok" }
        "https://v.w/x" "video" (QueueResponse.response false "Forbidden" none)).outcome
      = Outcome.failure ErrorKind.Rejected "Forbidden" :=
  ⟨by decide, by decide,
    (C9_queue_request_shape
      { server_url := "http://localhost:8000", api_pfx := "/api", token := "tok" }
      "https://v.w/x" "video" (by decide) (by decide)
      (Or.inl rfl)).2.2.2.2 "Forbidden" (by decide)⟩

/-- C1 (counterexample): when the queue POST returns HTTP 403 with body
detail bad token, the submission client's classification is Rejected with
detail bad token, but the reply delivered to the initiating context is
ok true with no error — not the claimed classified outcome. -/
theorem C1_counterexample :
    (handleDirectDownload { url := "https://example.com/watch", modo := "video", fromFloat := false }
        none { server_url := "http://localhost:8000", api_pfx := "/api", token := "tok" }
        (QueueResponse.response false "Forbidden"
          (some { detail := some "bad token", message := none }))).response
      = some { ok := true, error := none } ∧
    ((handleDirectDownload { url := "https://example.com/watch", modo := "video", fromFloat := false }
        none { server_url := "http://localhost:8000", api_pfx := "/api", token := "tok" }
        (QueueResponse.response false "Forbidden"
          (some { detail := some "bad token", message := none }))).submitted.map
        SendResult.outcome)
      = some (Outcome.failure ErrorKind.Rejected "bad token") ∧
    (handleDirectDownload { url := "https://example.com/watch", modo := "video", fromFloat := false }
        none { server_url := "http://localhost:8000", api_pfx := "/api", token := "tok" }
        (QueueResponse.response false "Forbidden"
          (some { detail := some "bad token", message := none }))).response
      ≠ some { ok := false, error := some "bad token" } := by
  refine ⟨by decide, by decide, by decide⟩

/-- C1 (amended): for every SubmitDownload that passes the URL checks the
listener runs the submission client and then replies ok true regardless of
the classified outcome; the classification (such as Rejected with detail
bad token for a 403 response) is surfaced through the notification carried
in the submission result, not through the reply. -/
theorem C1_reply_always_ok_true (msg : Message) (tabUrl : Option String)
    (cfg : Config) (net : QueueResponse)
    (hne : jsOr msg.url (optStr tabUrl) ≠ "")
    (hok : msg.fromFloat = true ∨ isValidUrl (jsOr msg.url (optStr tabUrl)) = true) :
    (handleDirectDownload msg tabUrl cfg net).response = some { ok := true, error := none } ∧
    (handleDirectDownload msg tabUrl cfg net).submitted
      = some (sendDownload cfg (jsOr msg.url (optStr tabUrl)) (jsOr msg.modo "video") net) := by
  have hguard : (!msg.fromFloat && !(isValidUrl (jsOr msg.url (optStr tabUrl)))) = false := by
    rcases hok with h | h <;> simp [h]
  constructor
  · simp [handleDirectDownload, hne, hguard]
  · simp [handleDirectDownload, hne, hguard]

/-- C1 witness: the 403 bad-token scenario passes the URL checks and is
answered with the unconditional ok-true reply. -/
theorem C1_reply_witness :
    (handleDirectDownload { url := "https://example.com/watch", modo := "video", fromFloat := false }
        none { server_url := "http://localhost:8000", api_pfx := "/api", token := "tok" }
        (QueueResponse.response false "Forbidden"
          (some { detail := some "bad token", message := none }))).response
      = some { ok := true, error := none } :=
  (C1_reply_always_ok_true
    { url := "https://example.com/watch", modo := "video", fromFloat := false }
    none { server_url := "http://localhost:8000", api_pfx := "/api", token := "tok" }
    (QueueResponse.response false "Forbidden"
      (some { detail := some "bad token", message := none }))
    (by decide) (Or.inr (by decide))).1

end MVideoDK
